import Mathlib

/-!
Shallow embedding of `src/systems/DynamicDifficulty.ts` from the `bounce`
repository: the `DynamicDifficultyAdjuster` class, its metric estimator,
its cooldown-gated adjustment decision, the settings clamps and `reset()`.

JS numbers are modelled as rationals (`ℚ`); `Date.now()` timestamps are
passed explicitly as the `now` argument of each call; the loosely typed
event payload is modelled as the optional `expectedTime` marker, the only
payload field the source reads, and the source's truthiness test
`if (data?.expectedTime)` becomes "present and nonzero".
-/

namespace Bounce

/-- `PlayerMetrics` interface of the source. -/
structure PlayerMetrics where
  successRate : ℚ
  averageAttempts : ℚ
  reactionTime : ℚ
  frustrationLevel : ℚ
  engagementScore : ℚ
  skillLevel : ℚ
deriving DecidableEq

/-- `DifficultySettings` interface of the source. -/
structure DifficultySettings where
  enemySpeed : ℚ
  enemyCount : ℚ
  platformSpacing : ℚ
  ringRequirement : ℚ
  gravityStrength : ℚ
  powerUpFrequency : ℚ
deriving DecidableEq

/-- The mutable fields of the `DynamicDifficultyAdjuster` class. -/
structure DDAState where
  playerMetrics : PlayerMetrics
  baseSettings : DifficultySettings
  currentSettings : DifficultySettings
  adjustmentHistory : List ℚ
  lastAdjustmentTime : ℚ
  deathCount : ℕ
  levelStartTime : ℚ
  lastActionTime : ℚ
  consecutiveFailures : ℕ
  consecutiveSuccesses : ℕ
deriving DecidableEq

/-- `ADJUSTMENT_COOLDOWN = 10000` (ms). -/
def ADJUSTMENT_COOLDOWN : ℚ := 10000

/-- `lerp(a, b, t) = a + (b - a) * t`. -/
def lerp (a b t : ℚ) : ℚ := a + (b - a) * t

/-- The constructor's seed metrics. -/
def initMetrics : PlayerMetrics :=
  { successRate := 0.7
    averageAttempts := 3
    reactionTime := 300
    frustrationLevel := 0.3
    engagementScore := 0.7
    skillLevel := 0.5 }

/-- `new DynamicDifficultyAdjuster(baseSettings)`. -/
def mkAdjuster (base : DifficultySettings) : DDAState :=
  { playerMetrics := initMetrics
    baseSettings := base
    currentSettings := base
    adjustmentHistory := []
    lastAdjustmentTime := 0
    deathCount := 0
    levelStartTime := 0
    lastActionTime := 0
    consecutiveFailures := 0
    consecutiveSuccesses := 0 }

/-- `updateSuccessRate(attempts)`. -/
def updateSuccessRate (s : DDAState) (attempts : ℚ) : DDAState :=
  let successRate := 1 / attempts
  { s with playerMetrics :=
      { s.playerMetrics with
          successRate := lerp s.playerMetrics.successRate successRate 0.2 } }

/-- `updateFrustrationLevel(delta)`. -/
def updateFrustrationLevel (s : DDAState) (delta : ℚ) : DDAState :=
  { s with playerMetrics :=
      { s.playerMetrics with
          frustrationLevel :=
            max 0 (min 1 (s.playerMetrics.frustrationLevel + delta)) } }

/-- `updateEngagementScore(levelTime, attempts, bonus)`. -/
def updateEngagementScore (s : DDAState) (levelTime attempts bonus : ℚ) : DDAState :=
  let timeScore := max 0 (1 - levelTime / 60000)
  let attemptScore := max 0 (1 - attempts / 5)
  let newEngagement := (timeScore + attemptScore) / 2 + bonus
  { s with playerMetrics :=
      { s.playerMetrics with
          engagementScore :=
            lerp s.playerMetrics.engagementScore newEngagement 0.3 } }

/-- `updateSkillLevel()`, run unconditionally after every event. -/
def updateSkillLevel (s : DDAState) : DDAState :=
  let successComponent := s.playerMetrics.successRate
  let reactionComponent := max 0 (1 - s.playerMetrics.reactionTime / 1000)
  let consistencyComponent := min ((s.consecutiveSuccesses : ℚ) / 5) 1
  let newSkill := (successComponent + reactionComponent + consistencyComponent) / 3
  { s with playerMetrics :=
      { s.playerMetrics with
          skillLevel := lerp s.playerMetrics.skillLevel newSkill 0.1 } }

/-- The `'increase' | 'decrease'` literal union of the source. -/
inductive Direction where
  | increase
  | decrease
deriving DecidableEq

/-- Return type of `shouldAdjustDifficulty()`. -/
structure AdjustmentDecision where
  adjust : Bool
  direction : Direction
  intensity : ℚ
deriving DecidableEq

/-- `shouldAdjustDifficulty()`: the priority-ordered decision cascade. -/
def shouldAdjustDifficulty (s : DDAState) : AdjustmentDecision :=
  let m := s.playerMetrics
  if m.frustrationLevel > 0.7 ∨ m.successRate < 0.4 ∨ s.consecutiveFailures > 3 then
    { adjust := true, direction := .decrease, intensity := min m.frustrationLevel 0.2 }
  else if m.engagementScore < 0.4 ∨ m.successRate > 0.9 ∨ s.consecutiveSuccesses > 5 then
    { adjust := true, direction := .increase
      intensity := if m.successRate > 0.9 then 0.15 else 0.1 }
  else
    let skillDifference := m.skillLevel - 0.5
    if |skillDifference| > 0.2 then
      { adjust := true
        direction := if skillDifference > 0 then .increase else .decrease
        intensity := |skillDifference| * 0.1 }
    else
      { adjust := false, direction := .increase, intensity := 0 }

/-- `clampSettings()`: clamp the five bounded fields of `currentSettings`. -/
def clampSettings (s : DDAState) : DDAState :=
  { s with currentSettings :=
      { s.currentSettings with
          enemySpeed := max 50 (min 300 s.currentSettings.enemySpeed)
          enemyCount := max 1 (min 10 s.currentSettings.enemyCount)
          platformSpacing := max 50 (min 200 s.currentSettings.platformSpacing)
          gravityStrength := max 300 (min 800 s.currentSettings.gravityStrength)
          powerUpFrequency := max 0.1 (min 1 s.currentSettings.powerUpFrequency) } }

/-- `adjustDifficulty(direction, intensity)`: multiplicative nudge, clamp,
history push with FIFO eviction past length 10. -/
def adjustDifficulty (s : DDAState) (direction : Direction) (intensity : ℚ) : DDAState :=
  let multiplier := if direction = Direction.increase then 1 + intensity else 1 - intensity
  let cs0 := s.currentSettings
  let cs1 := { cs0 with
      enemySpeed := cs0.enemySpeed * multiplier
      gravityStrength := cs0.gravityStrength * multiplier }
  let cs2 :=
    if direction = Direction.increase then
      { cs1 with
          enemyCount := min 10 ((⌈cs1.enemyCount * multiplier⌉ : ℤ) : ℚ)
          platformSpacing := cs1.platformSpacing * 1.1
          powerUpFrequency := cs1.powerUpFrequency * 0.9 }
    else
      { cs1 with
          enemyCount := max 1 ((⌊cs1.enemyCount * multiplier⌋ : ℤ) : ℚ)
          platformSpacing := cs1.platformSpacing * 0.9
          powerUpFrequency := cs1.powerUpFrequency * 1.1 }
  let s1 := clampSettings { s with currentSettings := cs2 }
  let hist :=
    s1.adjustmentHistory ++
      [if direction = Direction.increase then intensity else -intensity]
  let hist2 := if hist.length > 10 then hist.tail else hist
  { s1 with adjustmentHistory := hist2 }

/-- `considerAdjustment()`: the cooldown gate and the decision dispatch;
`now` is `Date.now()` at the moment `updateMetrics` was entered. -/
def considerAdjustment (s : DDAState) (now : ℚ) : DDAState :=
  if now - s.lastAdjustmentTime < ADJUSTMENT_COOLDOWN then s
  else
    let shouldAdjust := shouldAdjustDifficulty s
    if shouldAdjust.adjust then
      { adjustDifficulty s shouldAdjust.direction shouldAdjust.intensity with
          lastAdjustmentTime := now }
    else s

/-- The `switch (event)` body of `updateMetrics`: the per-event mutations,
before the unconditional skill recompute and adjustment consideration.
`data` is the optional `expectedTime` payload field; the source's
`if (data?.expectedTime)` is a JS truthiness test, hence "present and
nonzero". -/
def applyEvent (s : DDAState) (event : String) (data : Option ℚ) (now : ℚ) : DDAState :=
  if event = "level_start" then
    { s with levelStartTime := now, deathCount := 0 }
  else if event = "player_death" then
    updateFrustrationLevel
      { s with
          deathCount := s.deathCount + 1
          consecutiveFailures := s.consecutiveFailures + 1
          consecutiveSuccesses := 0 } 0.1
  else if event = "level_complete" then
    let levelTime := now - s.levelStartTime
    let attempts : ℚ := (s.deathCount : ℚ) + 1
    let s1 := updateSuccessRate s attempts
    let s2 := { s1 with
        consecutiveSuccesses := s1.consecutiveSuccesses + 1
        consecutiveFailures := 0 }
    updateEngagementScore s2 levelTime attempts 0
  else if event = "ring_collected" then
    updateFrustrationLevel { s with lastActionTime := now } (-0.02)
  else if event = "power_up_collected" then
    updateEngagementScore s 0 0 0.05
  else if event = "player_input" then
    match data with
    | some expectedTime =>
        if expectedTime = 0 then s
        else
          let reactionTime := now - expectedTime
          { s with playerMetrics :=
              { s.playerMetrics with
                  reactionTime :=
                    lerp s.playerMetrics.reactionTime reactionTime 0.1 } }
    | none => s
  else s

/-- `updateMetrics(event, data)` entered at wall-clock time `now`:
the event switch, then `updateSkillLevel()`, then `considerAdjustment()`. -/
def updateMetrics (s : DDAState) (event : String) (data : Option ℚ) (now : ℚ) : DDAState :=
  considerAdjustment (updateSkillLevel (applyEvent s event data now)) now

/-- `reset()`. -/
def reset (s : DDAState) : DDAState :=
  { s with
      currentSettings := s.baseSettings
      adjustmentHistory := []
      consecutiveFailures := 0
      consecutiveSuccesses := 0
      deathCount := 0 }

/-- One `updateMetrics` invocation: event kind, optional payload marker,
wall-clock timestamp of the call. -/
structure EventCall where
  event : String
  data : Option ℚ
  now : ℚ
deriving DecidableEq

/-- Run a sequence of `updateMetrics` calls. -/
def runEvents (s : DDAState) : List EventCall → DDAState
  | [] => s
  | c :: rest => runEvents (updateMetrics s c.event c.data c.now) rest

/-- The state after each `updateMetrics` call of a sequence. -/
def statesEvents (s : DDAState) : List EventCall → List DDAState
  | [] => []
  | c :: rest =>
      updateMetrics s c.event c.data c.now ::
        statesEvents (updateMetrics s c.event c.data c.now) rest

/-- A call sequence with nondecreasing wall-clock timestamps starting at or
after `t0`, whose `player_input` markers never lie in the future of the call
that carries them. -/
def ValidFrom : ℚ → List EventCall → Prop
  | _, [] => True
  | t0, c :: rest =>
      t0 ≤ c.now ∧
        (match c.data with
          | some et => et ≤ c.now
          | none => True) ∧
        ValidFrom c.now rest

/-- An external operation on the controller: an `updateMetrics` call or a
`reset()` call. -/
inductive Op where
  | update (event : String) (data : Option ℚ) (now : ℚ)
  | reset
deriving DecidableEq

/-- Apply one operation. -/
def stepOp (s : DDAState) : Op → DDAState
  | .update e d t => updateMetrics s e d t
  | .reset => reset s

/-- Run a sequence of operations. -/
def runOps (s : DDAState) : List Op → DDAState
  | [] => s
  | op :: rest => runOps (stepOp s op) rest

/-- The state after each operation of a sequence. -/
def statesOps (s : DDAState) : List Op → List DDAState
  | [] => []
  | op :: rest => stepOp s op :: statesOps (stepOp s op) rest

/-- Whether a given `updateMetrics` call actually applies an adjustment:
the cooldown gate passes and the decision cascade fires, evaluated on the
state after the event switch and the skill recompute, exactly where
`considerAdjustment()` evaluates them. -/
def stepApplied (s : DDAState) (event : String) (data : Option ℚ) (now : ℚ) : Prop :=
  let s2 := updateSkillLevel (applyEvent s event data now)
  ADJUSTMENT_COOLDOWN ≤ now - s2.lastAdjustmentTime ∧ (shouldAdjustDifficulty s2).adjust = true

instance (s : DDAState) (event : String) (data : Option ℚ) (now : ℚ) :
    Decidable (stepApplied s event data now) := by
  unfold stepApplied; infer_instance

/-- The timestamps of the calls of a sequence that actually apply an
adjustment, in call order. -/
def appliedTimes (s : DDAState) : List EventCall → List ℚ
  | [] => []
  | c :: rest =>
      if stepApplied s c.event c.data c.now then
        c.now :: appliedTimes (updateMetrics s c.event c.data c.now) rest
      else appliedTimes (updateMetrics s c.event c.data c.now) rest

/-- The baseline of the spec's literal scenario 1, used for concrete runs. -/
def demoBase : DifficultySettings :=
  { enemySpeed := 100
    enemyCount := 3
    platformSpacing := 120
    ringRequirement := 5
    gravityStrength := 400
    powerUpFrequency := 0.3 }

/-! ### Frame lemmas: which fields each source function leaves untouched -/

lemma adjustDifficulty_playerMetrics (s : DDAState) (dir : Direction) (i : ℚ) :
    (adjustDifficulty s dir i).playerMetrics = s.playerMetrics := rfl

lemma adjustDifficulty_baseSettings (s : DDAState) (dir : Direction) (i : ℚ) :
    (adjustDifficulty s dir i).baseSettings = s.baseSettings := rfl

lemma adjustDifficulty_lastAdjustmentTime (s : DDAState) (dir : Direction) (i : ℚ) :
    (adjustDifficulty s dir i).lastAdjustmentTime = s.lastAdjustmentTime := rfl

lemma adjustDifficulty_counters (s : DDAState) (dir : Direction) (i : ℚ) :
    (adjustDifficulty s dir i).consecutiveFailures = s.consecutiveFailures ∧
      (adjustDifficulty s dir i).consecutiveSuccesses = s.consecutiveSuccesses ∧
      (adjustDifficulty s dir i).deathCount = s.deathCount ∧
      (adjustDifficulty s dir i).levelStartTime = s.levelStartTime := ⟨rfl, rfl, rfl, rfl⟩

/-- `considerAdjustment` either returns its input unchanged or returns the
adjusted state stamped with the current time. -/
lemma considerAdjustment_cases (s : DDAState) (now : ℚ) :
    considerAdjustment s now = s ∨
      considerAdjustment s now =
        { adjustDifficulty s (shouldAdjustDifficulty s).direction
            (shouldAdjustDifficulty s).intensity with lastAdjustmentTime := now } := by
  by_cases hg : now - s.lastAdjustmentTime < ADJUSTMENT_COOLDOWN
  · left
    simp only [considerAdjustment, if_pos hg]
  · by_cases hb : (shouldAdjustDifficulty s).adjust = true
    · right
      simp only [considerAdjustment, if_neg hg, if_pos hb]
    · left
      simp only [considerAdjustment, if_neg hg, if_neg hb]

lemma considerAdjustment_playerMetrics (s : DDAState) (now : ℚ) :
    (considerAdjustment s now).playerMetrics = s.playerMetrics := by
  rcases considerAdjustment_cases s now with h | h <;> (rw [h]; try rfl)

lemma considerAdjustment_baseSettings (s : DDAState) (now : ℚ) :
    (considerAdjustment s now).baseSettings = s.baseSettings := by
  rcases considerAdjustment_cases s now with h | h <;> (rw [h]; try rfl)

lemma considerAdjustment_counters (s : DDAState) (now : ℚ) :
    (considerAdjustment s now).consecutiveFailures = s.consecutiveFailures ∧
      (considerAdjustment s now).consecutiveSuccesses = s.consecutiveSuccesses ∧
      (considerAdjustment s now).deathCount = s.deathCount ∧
      (considerAdjustment s now).levelStartTime = s.levelStartTime := by
  rcases considerAdjustment_cases s now with h | h <;> rw [h] <;>
    exact ⟨rfl, rfl, rfl, rfl⟩

lemma updateSkillLevel_successRate (s : DDAState) :
    (updateSkillLevel s).playerMetrics.successRate = s.playerMetrics.successRate := rfl

lemma updateSkillLevel_averageAttempts (s : DDAState) :
    (updateSkillLevel s).playerMetrics.averageAttempts = s.playerMetrics.averageAttempts := rfl

lemma updateSkillLevel_reactionTime (s : DDAState) :
    (updateSkillLevel s).playerMetrics.reactionTime = s.playerMetrics.reactionTime := rfl

lemma updateSkillLevel_frustrationLevel (s : DDAState) :
    (updateSkillLevel s).playerMetrics.frustrationLevel = s.playerMetrics.frustrationLevel := rfl

lemma updateSkillLevel_engagementScore (s : DDAState) :
    (updateSkillLevel s).playerMetrics.engagementScore = s.playerMetrics.engagementScore := rfl

lemma updateSkillLevel_baseSettings (s : DDAState) :
    (updateSkillLevel s).baseSettings = s.baseSettings := rfl

lemma updateSkillLevel_currentSettings (s : DDAState) :
    (updateSkillLevel s).currentSettings = s.currentSettings := rfl

lemma updateSkillLevel_lastAdjustmentTime (s : DDAState) :
    (updateSkillLevel s).lastAdjustmentTime = s.lastAdjustmentTime := rfl

lemma updateSkillLevel_consecutiveFailures (s : DDAState) :
    (updateSkillLevel s).consecutiveFailures = s.consecutiveFailures := rfl

lemma updateSkillLevel_consecutiveSuccesses (s : DDAState) :
    (updateSkillLevel s).consecutiveSuccesses = s.consecutiveSuccesses := rfl

lemma updateSkillLevel_deathCount (s : DDAState) :
    (updateSkillLevel s).deathCount = s.deathCount := rfl

lemma updateSkillLevel_levelStartTime (s : DDAState) :
    (updateSkillLevel s).levelStartTime = s.levelStartTime := rfl

lemma applyEvent_lastAdjustmentTime (s : DDAState) (e : String) (d : Option ℚ) (now : ℚ) :
    (applyEvent s e d now).lastAdjustmentTime = s.lastAdjustmentTime := by
  unfold applyEvent updateSuccessRate updateEngagementScore updateFrustrationLevel
  repeat' split
  all_goals rfl

lemma applyEvent_currentSettings (s : DDAState) (e : String) (d : Option ℚ) (now : ℚ) :
    (applyEvent s e d now).currentSettings = s.currentSettings := by
  unfold applyEvent updateSuccessRate updateEngagementScore updateFrustrationLevel
  repeat' split
  all_goals rfl

lemma applyEvent_baseSettings (s : DDAState) (e : String) (d : Option ℚ) (now : ℚ) :
    (applyEvent s e d now).baseSettings = s.baseSettings := by
  unfold applyEvent updateSuccessRate updateEngagementScore updateFrustrationLevel
  repeat' split
  all_goals rfl

lemma applyEvent_player_input_none (s : DDAState) (now : ℚ) :
    applyEvent s "player_input" none now = s := by
  unfold applyEvent
  simp

lemma applyEvent_player_input_some (s : DDAState) (et now : ℚ) :
    applyEvent s "player_input" (some et) now =
      (if et = 0 then s
        else
          { s with playerMetrics :=
              { s.playerMetrics with
                  reactionTime := lerp s.playerMetrics.reactionTime (now - et) 0.1 } }) := by
  unfold applyEvent
  simp

lemma updateMetrics_baseSettings (s : DDAState) (e : String) (d : Option ℚ) (now : ℚ) :
    (updateMetrics s e d now).baseSettings = s.baseSettings := by
  unfold updateMetrics
  rw [considerAdjustment_baseSettings, updateSkillLevel_baseSettings, applyEvent_baseSettings]

lemma updateMetrics_lastAdjustmentTime_eq (s : DDAState) (e : String) (d : Option ℚ) (now : ℚ) :
    (updateMetrics s e d now).lastAdjustmentTime =
      if stepApplied s e d now then now else s.lastAdjustmentTime := by
  unfold updateMetrics stepApplied
  set s2 := updateSkillLevel (applyEvent s e d now) with hs2
  have hlast : s2.lastAdjustmentTime = s.lastAdjustmentTime := by
    rw [hs2, updateSkillLevel_lastAdjustmentTime, applyEvent_lastAdjustmentTime]
  by_cases hg : now - s2.lastAdjustmentTime < ADJUSTMENT_COOLDOWN
  · have hna : ¬ (ADJUSTMENT_COOLDOWN ≤ now - s2.lastAdjustmentTime ∧
        (shouldAdjustDifficulty s2).adjust = true) := by
      rintro ⟨h1, -⟩
      exact absurd hg (not_lt.mpr h1)
    simp only [considerAdjustment, if_pos hg, if_neg hna]
    exact hlast
  · by_cases hb : (shouldAdjustDifficulty s2).adjust = true
    · have hap : ADJUSTMENT_COOLDOWN ≤ now - s2.lastAdjustmentTime ∧
          (shouldAdjustDifficulty s2).adjust = true := ⟨not_lt.mp hg, hb⟩
      simp only [considerAdjustment, if_neg hg, if_pos hb, if_pos hap]
    · have hna : ¬ (ADJUSTMENT_COOLDOWN ≤ now - s2.lastAdjustmentTime ∧
          (shouldAdjustDifficulty s2).adjust = true) := by
        rintro ⟨-, h2⟩
        exact hb h2
      simp only [considerAdjustment, if_neg hg, if_neg hb, if_neg hna]
      exact hlast

lemma runOps_baseSettings (ops : List Op) :
    ∀ s : DDAState, (runOps s ops).baseSettings = s.baseSettings := by
  induction ops with
  | nil => intro s; rfl
  | cons op rest ih =>
    intro s
    rw [runOps, ih]
    cases op with
    | update e d t => exact updateMetrics_baseSettings s e d t
    | reset => rfl

/-! ### Claim theorems -/

/-- Claim C7: in every state reachable from construction by `updateMetrics`
events and `reset()` calls, `reset()` sets `currentSettings` to the
construction-time baseline, empties `adjustmentHistory`, zeroes
`consecutiveFailures`, `consecutiveSuccesses` and `deathCount`, leaves
`playerMetrics` unchanged, and is idempotent. -/
theorem reset_restores_baseline (base : DifficultySettings) (ops : List Op) :
    (reset (runOps (mkAdjuster base) ops)).currentSettings = base ∧
      (reset (runOps (mkAdjuster base) ops)).adjustmentHistory = [] ∧
      (reset (runOps (mkAdjuster base) ops)).consecutiveFailures = 0 ∧
      (reset (runOps (mkAdjuster base) ops)).consecutiveSuccesses = 0 ∧
      (reset (runOps (mkAdjuster base) ops)).deathCount = 0 ∧
      (reset (runOps (mkAdjuster base) ops)).playerMetrics =
        (runOps (mkAdjuster base) ops).playerMetrics ∧
      reset (reset (runOps (mkAdjuster base) ops)) = reset (runOps (mkAdjuster base) ops) := by
  refine ⟨?_, rfl, rfl, rfl, rfl, rfl, rfl⟩
  show (runOps (mkAdjuster base) ops).baseSettings = base
  rw [runOps_baseSettings]
  rfl

/-- Claim C9: `reset()` leaves `lastAdjustmentTime` unchanged, so the
cooldown window of the last pre-reset applied adjustment survives reset: an
`updateMetrics` call made while the pre-reset cooldown is still running
applies no adjustment — its `lastAdjustmentTime` is the pre-reset one and
its settings are still the baseline that `reset()` restored. -/
theorem reset_keeps_cooldown (s : DDAState) (e : String) (d : Option ℚ) (now : ℚ)
    (h : now - s.lastAdjustmentTime < ADJUSTMENT_COOLDOWN) :
    (reset s).lastAdjustmentTime = s.lastAdjustmentTime ∧
      (updateMetrics (reset s) e d now).lastAdjustmentTime = s.lastAdjustmentTime ∧
      (updateMetrics (reset s) e d now).currentSettings = s.baseSettings := by
  refine ⟨rfl, ?_, ?_⟩
  · rw [updateMetrics_lastAdjustmentTime_eq]
    have hna : ¬ stepApplied (reset s) e d now := by
      unfold stepApplied
      rintro ⟨h1, -⟩
      rw [updateSkillLevel_lastAdjustmentTime, applyEvent_lastAdjustmentTime] at h1
      exact absurd h (not_lt.mpr h1)
    rw [if_neg hna]
    rfl
  · unfold updateMetrics
    have hg : now - (updateSkillLevel (applyEvent (reset s) e d now)).lastAdjustmentTime <
        ADJUSTMENT_COOLDOWN := by
      rw [updateSkillLevel_lastAdjustmentTime, applyEvent_lastAdjustmentTime]
      exact h
    rw [considerAdjustment, if_pos hg, updateSkillLevel_currentSettings,
      applyEvent_currentSettings]
    rfl

/-- Claim C9 witness at a concrete input. -/
theorem reset_keeps_cooldown_witness :
    (0 - (mkAdjuster demoBase).lastAdjustmentTime < ADJUSTMENT_COOLDOWN) ∧
      ((reset (mkAdjuster demoBase)).lastAdjustmentTime =
          (mkAdjuster demoBase).lastAdjustmentTime ∧
        (updateMetrics (reset (mkAdjuster demoBase)) "ring_collected" none 0).lastAdjustmentTime =
          (mkAdjuster demoBase).lastAdjustmentTime ∧
        (updateMetrics (reset (mkAdjuster demoBase)) "ring_collected" none 0).currentSettings =
          (mkAdjuster demoBase).baseSettings) := by
  have h : (0 : ℚ) - (mkAdjuster demoBase).lastAdjustmentTime < ADJUSTMENT_COOLDOWN := by
    norm_num [mkAdjuster, ADJUSTMENT_COOLDOWN]
  exact ⟨h, reset_keeps_cooldown (mkAdjuster demoBase) "ring_collected" none 0 h⟩

/-- Claim C10: a `player_input` payload whose `expectedTime` marker is `0` is
treated exactly like a missing marker, because the source's presence check is
a JS truthiness test; any nonzero marker — including one in the future,
yielding a negative reaction-time sample — updates `reactionTime` by `lerp`
with weight 0.1. -/
theorem player_input_zero_marker (s : DDAState) (now et : ℚ) (h : et ≠ 0) :
    updateMetrics s "player_input" (some 0) now = updateMetrics s "player_input" none now ∧
      (updateMetrics s "player_input" (some et) now).playerMetrics.reactionTime =
        lerp s.playerMetrics.reactionTime (now - et) 0.1 := by
  constructor
  · unfold updateMetrics
    have heq : applyEvent s "player_input" (some 0) now = applyEvent s "player_input" none now := by
      unfold applyEvent
      simp
    rw [heq]
  · unfold updateMetrics
    rw [considerAdjustment_playerMetrics, updateSkillLevel_reactionTime]
    unfold applyEvent
    simp [h]

/-- Claim C10 witness: marker `5000` at call time `0` is a future marker;
the reaction-time sample is `-5000`. -/
theorem player_input_zero_marker_witness :
    ((5000 : ℚ) ≠ 0) ∧
      (updateMetrics (mkAdjuster demoBase) "player_input" (some 0) 0 =
          updateMetrics (mkAdjuster demoBase) "player_input" none 0 ∧
        (updateMetrics (mkAdjuster demoBase) "player_input" (some 5000) 0).playerMetrics.reactionTime =
          lerp (mkAdjuster demoBase).playerMetrics.reactionTime (0 - 5000) 0.1) := by
  have h : (5000 : ℚ) ≠ 0 := by norm_num
  exact ⟨h, player_input_zero_marker (mkAdjuster demoBase) 0 5000 h⟩

/-- The spec's decision rule, written from the spec's own words: three rules
in strict priority order with first match winning — Relief, then Challenge,
then Skill-matching with the direction following the sign of
`skillLevel − 0.5` — and otherwise no adjustment. Stated separately from
`shouldAdjustDifficulty` so the two can be compared. -/
def decisionSpec (s : DDAState) : AdjustmentDecision :=
  let m := s.playerMetrics
  if m.frustrationLevel > 0.7 ∨ m.successRate < 0.4 ∨ s.consecutiveFailures > 3 then
    { adjust := true, direction := .decrease, intensity := min m.frustrationLevel 0.2 }
  else if m.engagementScore < 0.4 ∨ m.successRate > 0.9 ∨ s.consecutiveSuccesses > 5 then
    { adjust := true, direction := .increase
      intensity := if m.successRate > 0.9 then 0.15 else 0.1 }
  else if |m.skillLevel - 0.5| > 0.2 then
    { adjust := true
      direction := if m.skillLevel - 0.5 > 0 then .increase else .decrease
      intensity := |m.skillLevel - 0.5| * 0.1 }
  else
    { adjust := false, direction := .increase, intensity := 0 }

/-- Claim C4: whenever the cooldown gate passes, the decision evaluates the
spec's three rules in strict priority order with first match winning, and
`considerAdjustment` applies exactly the adjustment that that rule list
prescribes (or none). -/
theorem decision_cascade (s : DDAState) (now : ℚ)
    (h : ADJUSTMENT_COOLDOWN ≤ now - s.lastAdjustmentTime) :
    shouldAdjustDifficulty s = decisionSpec s ∧
      considerAdjustment s now =
        (if (decisionSpec s).adjust then
          { adjustDifficulty s (decisionSpec s).direction (decisionSpec s).intensity with
              lastAdjustmentTime := now }
        else s) := by
  have h1 : shouldAdjustDifficulty s = decisionSpec s := rfl
  refine ⟨h1, ?_⟩
  by_cases hb : (shouldAdjustDifficulty s).adjust = true
  · simp only [considerAdjustment, if_neg (not_lt.mpr h), if_pos hb, h1, if_pos (h1 ▸ hb)]
  · simp only [considerAdjustment, if_neg (not_lt.mpr h), if_neg hb, if_neg (h1 ▸ hb)]

/-- Claim C4 witness at a concrete input. -/
theorem decision_cascade_witness :
    (ADJUSTMENT_COOLDOWN ≤ 20000 - (mkAdjuster demoBase).lastAdjustmentTime) ∧
      (shouldAdjustDifficulty (mkAdjuster demoBase) = decisionSpec (mkAdjuster demoBase) ∧
        considerAdjustment (mkAdjuster demoBase) 20000 =
          (if (decisionSpec (mkAdjuster demoBase)).adjust then
            { adjustDifficulty (mkAdjuster demoBase)
                (decisionSpec (mkAdjuster demoBase)).direction
                (decisionSpec (mkAdjuster demoBase)).intensity with
                lastAdjustmentTime := 20000 }
          else mkAdjuster demoBase)) := by
  have h : ADJUSTMENT_COOLDOWN ≤ (20000 : ℚ) - (mkAdjuster demoBase).lastAdjustmentTime := by
    norm_num [mkAdjuster, ADJUSTMENT_COOLDOWN]
  exact ⟨h, decision_cascade (mkAdjuster demoBase) 20000 h⟩

/-- Claim C5: an applied adjustment of direction `d` and intensity `i`
multiplies `enemySpeed` and `gravityStrength` by `1+i` (increase) or `1−i`
(decrease); on increase `enemyCount` scales and rounds up with a cap of 10,
`platformSpacing` scales by 1.1 and `powerUpFrequency` by 0.9; on decrease
`enemyCount` scales and rounds down with a floor of 1, `platformSpacing`
scales by 0.9 and `powerUpFrequency` by 1.1; afterwards all five bounded
fields are clamped to their legal ranges. -/
theorem adjustment_application (s : DDAState) (i : ℚ) :
    (adjustDifficulty s Direction.increase i).currentSettings.enemySpeed =
        max 50 (min 300 (s.currentSettings.enemySpeed * (1 + i))) ∧
      (adjustDifficulty s Direction.increase i).currentSettings.gravityStrength =
        max 300 (min 800 (s.currentSettings.gravityStrength * (1 + i))) ∧
      (adjustDifficulty s Direction.increase i).currentSettings.enemyCount =
        max 1 (min 10 (min 10 ((⌈s.currentSettings.enemyCount * (1 + i)⌉ : ℤ) : ℚ))) ∧
      (adjustDifficulty s Direction.increase i).currentSettings.platformSpacing =
        max 50 (min 200 (s.currentSettings.platformSpacing * 1.1)) ∧
      (adjustDifficulty s Direction.increase i).currentSettings.powerUpFrequency =
        max 0.1 (min 1 (s.currentSettings.powerUpFrequency * 0.9)) ∧
      (adjustDifficulty s Direction.decrease i).currentSettings.enemySpeed =
        max 50 (min 300 (s.currentSettings.enemySpeed * (1 - i))) ∧
      (adjustDifficulty s Direction.decrease i).currentSettings.gravityStrength =
        max 300 (min 800 (s.currentSettings.gravityStrength * (1 - i))) ∧
      (adjustDifficulty s Direction.decrease i).currentSettings.enemyCount =
        max 1 (min 10 (max 1 ((⌊s.currentSettings.enemyCount * (1 - i)⌋ : ℤ) : ℚ))) ∧
      (adjustDifficulty s Direction.decrease i).currentSettings.platformSpacing =
        max 50 (min 200 (s.currentSettings.platformSpacing * 0.9)) ∧
      (adjustDifficulty s Direction.decrease i).currentSettings.powerUpFrequency =
        max 0.1 (min 1 (s.currentSettings.powerUpFrequency * 1.1)) :=
  ⟨rfl, rfl, rfl, rfl, rfl, rfl, rfl, rfl, rfl, rfl⟩

/-- The event switch ignores an unrecognized event kind. -/
lemma applyEvent_unknown (s : DDAState) (e : String) (d : Option ℚ) (now : ℚ)
    (h1 : e ≠ "level_start") (h2 : e ≠ "player_death") (h3 : e ≠ "level_complete")
    (h4 : e ≠ "ring_collected") (h5 : e ≠ "power_up_collected") (h6 : e ≠ "player_input") :
    applyEvent s e d now = s := by
  unfold applyEvent
  rw [if_neg h1, if_neg h2, if_neg h3, if_neg h4, if_neg h5, if_neg h6]

/-- Claim C2, counterexample: at the freshly constructed state, an
unrecognized event kind does NOT leave the state unchanged — the
unconditional skill recompute still runs and moves `skillLevel`. -/
theorem unknown_event_changes_state :
    updateMetrics (mkAdjuster demoBase) "mystery_event" none 0 ≠ mkAdjuster demoBase := by
  simp [updateMetrics, applyEvent, considerAdjustment, updateSkillLevel, shouldAdjustDifficulty,
    mkAdjuster, initMetrics, demoBase, lerp, ADJUSTMENT_COOLDOWN, DDAState.mk.injEq,
    PlayerMetrics.mk.injEq]
  norm_num [min_def, max_def]

/-- Claim C2, amended: an unrecognized event kind makes the switch a no-op,
but the unconditional skill recompute and the cooldown-gated adjustment
consideration still run: the post-state is
`considerAdjustment (updateSkillLevel s) now`, and every metric other than
`skillLevel`, both consecutive counters and `deathCount` are unchanged
(`skillLevel` and the settings may still move). -/
theorem unknown_event_effect (s : DDAState) (e : String) (d : Option ℚ) (now : ℚ)
    (h : e ∉ ["level_start", "player_death", "level_complete", "ring_collected",
      "power_up_collected", "player_input"]) :
    updateMetrics s e d now = considerAdjustment (updateSkillLevel s) now ∧
      (updateMetrics s e d now).playerMetrics.successRate = s.playerMetrics.successRate ∧
      (updateMetrics s e d now).playerMetrics.averageAttempts = s.playerMetrics.averageAttempts ∧
      (updateMetrics s e d now).playerMetrics.reactionTime = s.playerMetrics.reactionTime ∧
      (updateMetrics s e d now).playerMetrics.frustrationLevel =
        s.playerMetrics.frustrationLevel ∧
      (updateMetrics s e d now).playerMetrics.engagementScore =
        s.playerMetrics.engagementScore ∧
      (updateMetrics s e d now).consecutiveFailures = s.consecutiveFailures ∧
      (updateMetrics s e d now).consecutiveSuccesses = s.consecutiveSuccesses ∧
      (updateMetrics s e d now).deathCount = s.deathCount := by
  simp only [List.mem_cons, List.not_mem_nil, or_false, not_or] at h
  obtain ⟨h1, h2, h3, h4, h5, h6⟩ := h
  have heq : updateMetrics s e d now = considerAdjustment (updateSkillLevel s) now := by
    unfold updateMetrics
    rw [applyEvent_unknown s e d now h1 h2 h3 h4 h5 h6]
  refine ⟨heq, ?_, ?_, ?_, ?_, ?_, ?_, ?_, ?_⟩ <;> rw [heq]
  · rw [considerAdjustment_playerMetrics]
    rfl
  · rw [considerAdjustment_playerMetrics]
    rfl
  · rw [considerAdjustment_playerMetrics]
    rfl
  · rw [considerAdjustment_playerMetrics]
    rfl
  · rw [considerAdjustment_playerMetrics]
    rfl
  · exact (considerAdjustment_counters _ _).1
  · exact (considerAdjustment_counters _ _).2.1
  · exact (considerAdjustment_counters _ _).2.2.1

/-- Claim C2 witness at a concrete unrecognized event kind. -/
theorem unknown_event_effect_witness :
    ("mystery_event" ∉ ["level_start", "player_death", "level_complete", "ring_collected",
        "power_up_collected", "player_input"]) ∧
      (updateMetrics (mkAdjuster demoBase) "mystery_event" none 0 =
          considerAdjustment (updateSkillLevel (mkAdjuster demoBase)) 0 ∧
        (updateMetrics (mkAdjuster demoBase) "mystery_event" none 0).playerMetrics.successRate =
          (mkAdjuster demoBase).playerMetrics.successRate ∧
        (updateMetrics (mkAdjuster demoBase) "mystery_event" none 0).playerMetrics.averageAttempts =
          (mkAdjuster demoBase).playerMetrics.averageAttempts ∧
        (updateMetrics (mkAdjuster demoBase) "mystery_event" none 0).playerMetrics.reactionTime =
          (mkAdjuster demoBase).playerMetrics.reactionTime ∧
        (updateMetrics (mkAdjuster demoBase) "mystery_event" none 0).playerMetrics.frustrationLevel =
          (mkAdjuster demoBase).playerMetrics.frustrationLevel ∧
        (updateMetrics (mkAdjuster demoBase) "mystery_event" none 0).playerMetrics.engagementScore =
          (mkAdjuster demoBase).playerMetrics.engagementScore ∧
        (updateMetrics (mkAdjuster demoBase) "mystery_event" none 0).consecutiveFailures =
          (mkAdjuster demoBase).consecutiveFailures ∧
        (updateMetrics (mkAdjuster demoBase) "mystery_event" none 0).consecutiveSuccesses =
          (mkAdjuster demoBase).consecutiveSuccesses ∧
        (updateMetrics (mkAdjuster demoBase) "mystery_event" none 0).deathCount =
          (mkAdjuster demoBase).deathCount) := by
  have h : ("mystery_event" : String) ∉ ["level_start", "player_death", "level_complete",
      "ring_collected", "power_up_collected", "player_input"] := by
    simp
  exact ⟨h, unknown_event_effect (mkAdjuster demoBase) "mystery_event" none 0 h⟩

/-- The documented legal ranges of the five clamped `DifficultySettings`
fields: `enemySpeed` [50,300], `enemyCount` [1,10], `platformSpacing`
[50,200], `gravityStrength` [300,800], `powerUpFrequency` [0.1,1]. -/
def SettingsInRange (c : DifficultySettings) : Prop :=
  50 ≤ c.enemySpeed ∧ c.enemySpeed ≤ 300 ∧
    1 ≤ c.enemyCount ∧ c.enemyCount ≤ 10 ∧
    50 ≤ c.platformSpacing ∧ c.platformSpacing ≤ 200 ∧
    300 ≤ c.gravityStrength ∧ c.gravityStrength ≤ 800 ∧
    0.1 ≤ c.powerUpFrequency ∧ c.powerUpFrequency ≤ 1

lemma clampSettings_inRange (s : DDAState) :
    SettingsInRange (clampSettings s).currentSettings := by
  unfold clampSettings SettingsInRange
  refine ⟨le_max_left _ _, max_le (by norm_num) (min_le_left _ _),
    le_max_left _ _, max_le (by norm_num) (min_le_left _ _),
    le_max_left _ _, max_le (by norm_num) (min_le_left _ _),
    le_max_left _ _, max_le (by norm_num) (min_le_left _ _),
    le_max_left _ _, max_le (by norm_num) (min_le_left _ _)⟩

lemma adjustDifficulty_inRange (s : DDAState) (dir : Direction) (i : ℚ) :
    SettingsInRange (adjustDifficulty s dir i).currentSettings :=
  clampSettings_inRange _

lemma withLastAdjustmentTime_currentSettings (s : DDAState) (t : ℚ) :
    ({ s with lastAdjustmentTime := t } : DDAState).currentSettings = s.currentSettings := rfl

/-- After any `updateMetrics` call the settings are either untouched or
freshly clamped. -/
lemma updateMetrics_settings_cases (s : DDAState) (e : String) (d : Option ℚ) (now : ℚ) :
    (updateMetrics s e d now).currentSettings = s.currentSettings ∨
      SettingsInRange (updateMetrics s e d now).currentSettings := by
  unfold updateMetrics
  rcases considerAdjustment_cases (updateSkillLevel (applyEvent s e d now)) now with h | h
  · left
    rw [h, updateSkillLevel_currentSettings, applyEvent_currentSettings]
  · right
    rw [h, withLastAdjustmentTime_currentSettings]
    exact adjustDifficulty_inRange _ _ _

lemma stepOp_settings_cases (s : DDAState) (op : Op) :
    (stepOp s op).currentSettings = s.currentSettings ∨
      SettingsInRange (stepOp s op).currentSettings ∨
      (stepOp s op).currentSettings = s.baseSettings := by
  cases op with
  | update e d t =>
    rcases updateMetrics_settings_cases s e d t with h | h
    · exact Or.inl h
    · exact Or.inr (Or.inl h)
  | reset => exact Or.inr (Or.inr rfl)

lemma stepOp_baseSettings (s : DDAState) (op : Op) :
    (stepOp s op).baseSettings = s.baseSettings := by
  cases op with
  | update e d t => exact updateMetrics_baseSettings s e d t
  | reset => rfl

lemma statesOps_inRange (ops : List Op) :
    ∀ s : DDAState, SettingsInRange s.currentSettings → SettingsInRange s.baseSettings →
      ∀ x ∈ statesOps s ops, SettingsInRange x.currentSettings := by
  induction ops with
  | nil =>
    intro s _ _ x hx
    simp [statesOps] at hx
  | cons op rest ih =>
    intro s hc hb x hx
    have hc' : SettingsInRange (stepOp s op).currentSettings := by
      rcases stepOp_settings_cases s op with h | h | h
      · rw [h]; exact hc
      · exact h
      · rw [h]; exact hb
    have hb' : SettingsInRange (stepOp s op).baseSettings := by
      rw [stepOp_baseSettings]; exact hb
    rw [statesOps] at hx
    rcases List.mem_cons.mp hx with h | h
    · rw [h]; exact hc'
    · exact ih (stepOp s op) hc' hb' x h

/-- Claim C3, counterexample: the constructor does not clamp the supplied
baseline, so with an out-of-range baseline (`enemySpeed = 1000`) the settings
are still out of range after a step that applies no adjustment. -/
theorem out_of_range_baseline_persists :
    ¬ SettingsInRange (updateMetrics
        (mkAdjuster
          { enemySpeed := 1000, enemyCount := 3, platformSpacing := 120,
            ringRequirement := 5, gravityStrength := 400, powerUpFrequency := 0.3 })
        "level_start" none 0).currentSettings := by
  intro h
  have hg : (0 : ℚ) - (updateSkillLevel (applyEvent
      (mkAdjuster
        { enemySpeed := 1000, enemyCount := 3, platformSpacing := 120,
          ringRequirement := 5, gravityStrength := 400, powerUpFrequency := 0.3 })
      "level_start" none 0)).lastAdjustmentTime < ADJUSTMENT_COOLDOWN := by
    rw [updateSkillLevel_lastAdjustmentTime, applyEvent_lastAdjustmentTime]
    norm_num [mkAdjuster, ADJUSTMENT_COOLDOWN]
  rw [updateMetrics, considerAdjustment, if_pos hg, updateSkillLevel_currentSettings,
    applyEvent_currentSettings] at h
  have h2 := h.2.1
  norm_num [mkAdjuster] at h2

/-- Claim C3, amended: provided the baseline supplied at construction already
lies within the documented ranges, every `DifficultySettings` field lies
within its documented range after each step of any sequence of events and
resets (adjustments always re-clamp; resets restore the in-range baseline). -/
theorem settings_stay_in_range (base : DifficultySettings) (ops : List Op)
    (h : SettingsInRange base) :
    ∀ x ∈ statesOps (mkAdjuster base) ops, SettingsInRange x.currentSettings :=
  statesOps_inRange ops (mkAdjuster base) h h

/-- Claim C3 witness at a concrete in-range baseline and a concrete step. -/
theorem settings_stay_in_range_witness :
    SettingsInRange demoBase ∧
      ∀ x ∈ statesOps (mkAdjuster demoBase) [Op.update "level_start" none 0],
        SettingsInRange x.currentSettings := by
  have h : SettingsInRange demoBase := by
    unfold SettingsInRange demoBase
    norm_num
  exact ⟨h, settings_stay_in_range demoBase [Op.update "level_start" none 0] h⟩

lemma updateMetrics_consecutiveFailures (s : DDAState) (e : String) (d : Option ℚ) (now : ℚ) :
    (updateMetrics s e d now).consecutiveFailures = (applyEvent s e d now).consecutiveFailures := by
  unfold updateMetrics
  rw [(considerAdjustment_counters _ _).1, updateSkillLevel_consecutiveFailures]

lemma updateMetrics_consecutiveSuccesses (s : DDAState) (e : String) (d : Option ℚ) (now : ℚ) :
    (updateMetrics s e d now).consecutiveSuccesses =
      (applyEvent s e d now).consecutiveSuccesses := by
  unfold updateMetrics
  rw [(considerAdjustment_counters _ _).2.1, updateSkillLevel_consecutiveSuccesses]

/-- Every event either increments `consecutiveFailures` and zeroes
`consecutiveSuccesses` (death), or increments `consecutiveSuccesses` and
zeroes `consecutiveFailures` (completion), or leaves both unchanged. -/
lemma applyEvent_counters_cases (s : DDAState) (e : String) (d : Option ℚ) (now : ℚ) :
    ((applyEvent s e d now).consecutiveFailures = s.consecutiveFailures + 1 ∧
        (applyEvent s e d now).consecutiveSuccesses = 0) ∨
      ((applyEvent s e d now).consecutiveSuccesses = s.consecutiveSuccesses + 1 ∧
        (applyEvent s e d now).consecutiveFailures = 0) ∨
      ((applyEvent s e d now).consecutiveFailures = s.consecutiveFailures ∧
        (applyEvent s e d now).consecutiveSuccesses = s.consecutiveSuccesses) := by
  unfold applyEvent updateFrustrationLevel updateSuccessRate updateEngagementScore
  repeat' split
  all_goals first
    | exact Or.inl ⟨rfl, rfl⟩
    | exact Or.inr (Or.inl ⟨rfl, rfl⟩)
    | exact Or.inr (Or.inr ⟨rfl, rfl⟩)

lemma runOps_counters_excl (ops : List Op) :
    ∀ s : DDAState, (s.consecutiveFailures = 0 ∨ s.consecutiveSuccesses = 0) →
      ((runOps s ops).consecutiveFailures = 0 ∨ (runOps s ops).consecutiveSuccesses = 0) := by
  induction ops with
  | nil => intro s h; exact h
  | cons op rest ih =>
    intro s h
    rw [runOps]
    refine ih (stepOp s op) ?_
    cases op with
    | update e d t =>
      show (updateMetrics s e d t).consecutiveFailures = 0 ∨
        (updateMetrics s e d t).consecutiveSuccesses = 0
      rw [updateMetrics_consecutiveFailures, updateMetrics_consecutiveSuccesses]
      rcases applyEvent_counters_cases s e d t with ⟨-, h2⟩ | ⟨-, h2⟩ | ⟨h1, h2⟩
      · exact Or.inr h2
      · exact Or.inl h2
      · rcases h with h | h
        · exact Or.inl (h1.trans h)
        · exact Or.inr (h2.trans h)
    | reset => exact Or.inl rfl

/-- Any operation other than `player_death` and `level_complete` leaves both
consecutive counters exactly unchanged. -/
lemma applyEvent_counters_other (s : DDAState) (e : String) (d : Option ℚ) (now : ℚ)
    (h2 : e ≠ "player_death") (h3 : e ≠ "level_complete") :
    (applyEvent s e d now).consecutiveFailures = s.consecutiveFailures ∧
      (applyEvent s e d now).consecutiveSuccesses = s.consecutiveSuccesses := by
  by_cases h1 : e = "level_start"
  · unfold applyEvent
    rw [if_pos h1]
    exact ⟨rfl, rfl⟩
  by_cases h4 : e = "ring_collected"
  · unfold applyEvent updateFrustrationLevel
    rw [if_neg h1, if_neg h2, if_neg h3, if_pos h4]
    exact ⟨rfl, rfl⟩
  by_cases h5 : e = "power_up_collected"
  · unfold applyEvent updateEngagementScore
    rw [if_neg h1, if_neg h2, if_neg h3, if_neg h4, if_pos h5]
    exact ⟨rfl, rfl⟩
  by_cases h6 : e = "player_input"
  · rw [h6]
    cases d with
    | none =>
      rw [applyEvent_player_input_none]
      exact ⟨rfl, rfl⟩
    | some et =>
      rw [applyEvent_player_input_some]
      by_cases hz : et = 0
      · rw [if_pos hz]
        exact ⟨rfl, rfl⟩
      · rw [if_neg hz]
        exact ⟨rfl, rfl⟩
  · unfold applyEvent
    rw [if_neg h1, if_neg h2, if_neg h3, if_neg h4, if_neg h5, if_neg h6]
    exact ⟨rfl, rfl⟩

/-- Claim C8: in every state reachable from construction by events and
resets, `consecutiveFailures` and `consecutiveSuccesses` are never both
nonzero: `player_death` increments failures and zeroes successes,
`level_complete` increments successes and zeroes failures, every other
event leaves both counters exactly unchanged, and `reset()` zeroes both. -/
theorem consecutive_counters_exclusive (base : DifficultySettings) (ops : List Op)
    (s : DDAState) (e : String) (d : Option ℚ) (t : ℚ)
    (he1 : e ≠ "player_death") (he2 : e ≠ "level_complete") :
    ((runOps (mkAdjuster base) ops).consecutiveFailures = 0 ∨
        (runOps (mkAdjuster base) ops).consecutiveSuccesses = 0) ∧
      (updateMetrics s "player_death" d t).consecutiveFailures = s.consecutiveFailures + 1 ∧
      (updateMetrics s "player_death" d t).consecutiveSuccesses = 0 ∧
      (updateMetrics s "level_complete" d t).consecutiveSuccesses =
        s.consecutiveSuccesses + 1 ∧
      (updateMetrics s "level_complete" d t).consecutiveFailures = 0 ∧
      (updateMetrics s e d t).consecutiveFailures = s.consecutiveFailures ∧
      (updateMetrics s e d t).consecutiveSuccesses = s.consecutiveSuccesses ∧
      (reset s).consecutiveFailures = 0 ∧ (reset s).consecutiveSuccesses = 0 := by
  refine ⟨runOps_counters_excl ops (mkAdjuster base) (Or.inl rfl), ?_, ?_, ?_, ?_, ?_, ?_,
    rfl, rfl⟩
  · rw [updateMetrics_consecutiveFailures]
    unfold applyEvent updateFrustrationLevel
    simp
  · rw [updateMetrics_consecutiveSuccesses]
    unfold applyEvent updateFrustrationLevel
    simp
  · rw [updateMetrics_consecutiveSuccesses]
    unfold applyEvent updateSuccessRate updateEngagementScore
    simp
  · rw [updateMetrics_consecutiveFailures]
    unfold applyEvent updateSuccessRate updateEngagementScore
    simp
  · rw [updateMetrics_consecutiveFailures]
    exact (applyEvent_counters_other s e d t he1 he2).1
  · rw [updateMetrics_consecutiveSuccesses]
    exact (applyEvent_counters_other s e d t he1 he2).2

/-- Claim C8 witness at a concrete event kind other than death/completion. -/
theorem consecutive_counters_exclusive_witness :
    (("ring_collected" : String) ≠ "player_death" ∧
        ("ring_collected" : String) ≠ "level_complete") ∧
      (((runOps (mkAdjuster demoBase) []).consecutiveFailures = 0 ∨
          (runOps (mkAdjuster demoBase) []).consecutiveSuccesses = 0) ∧
        (updateMetrics (mkAdjuster demoBase) "player_death" none 0).consecutiveFailures =
          (mkAdjuster demoBase).consecutiveFailures + 1 ∧
        (updateMetrics (mkAdjuster demoBase) "player_death" none 0).consecutiveSuccesses = 0 ∧
        (updateMetrics (mkAdjuster demoBase) "level_complete" none 0).consecutiveSuccesses =
          (mkAdjuster demoBase).consecutiveSuccesses + 1 ∧
        (updateMetrics (mkAdjuster demoBase) "level_complete" none 0).consecutiveFailures = 0 ∧
        (updateMetrics (mkAdjuster demoBase) "ring_collected" none 0).consecutiveFailures =
          (mkAdjuster demoBase).consecutiveFailures ∧
        (updateMetrics (mkAdjuster demoBase) "ring_collected" none 0).consecutiveSuccesses =
          (mkAdjuster demoBase).consecutiveSuccesses ∧
        (reset (mkAdjuster demoBase)).consecutiveFailures = 0 ∧
        (reset (mkAdjuster demoBase)).consecutiveSuccesses = 0) := by
  have he1 : ("ring_collected" : String) ≠ "player_death" := by simp
  have he2 : ("ring_collected" : String) ≠ "level_complete" := by simp
  exact ⟨⟨he1, he2⟩, consecutive_counters_exclusive demoBase [] (mkAdjuster demoBase)
    "ring_collected" none 0 he1 he2⟩

/-- Along any call sequence, the head `lastAdjustmentTime` followed by the
applied-adjustment timestamps is a chain of gaps of at least the cooldown. -/
lemma appliedTimes_chain (tr : List EventCall) :
    ∀ s : DDAState,
      List.Chain' (fun a b : ℚ => ADJUSTMENT_COOLDOWN ≤ b - a)
        (s.lastAdjustmentTime :: appliedTimes s tr) := by
  induction tr with
  | nil => intro s; simp [appliedTimes]
  | cons c rest ih =>
    intro s
    by_cases h : stepApplied s c.event c.data c.now
    · have hlast : (updateMetrics s c.event c.data c.now).lastAdjustmentTime = c.now := by
        rw [updateMetrics_lastAdjustmentTime_eq, if_pos h]
      have hsep : ADJUSTMENT_COOLDOWN ≤ c.now - s.lastAdjustmentTime := by
        have h1 := h.1
        rwa [updateSkillLevel_lastAdjustmentTime, applyEvent_lastAdjustmentTime] at h1
      rw [appliedTimes, if_pos h]
      refine List.chain'_cons.mpr ⟨hsep, ?_⟩
      have h2 := ih (updateMetrics s c.event c.data c.now)
      rwa [hlast] at h2
    · have hlast : (updateMetrics s c.event c.data c.now).lastAdjustmentTime =
          s.lastAdjustmentTime := by
        rw [updateMetrics_lastAdjustmentTime_eq, if_neg h]
      rw [appliedTimes, if_neg h]
      have h2 := ih (updateMetrics s c.event c.data c.now)
      rwa [hlast] at h2

lemma chain_sep_pairwise (l : List ℚ)
    (h : List.Chain' (fun a b : ℚ => ADJUSTMENT_COOLDOWN ≤ b - a) l) :
    List.Pairwise (fun a b : ℚ => ADJUSTMENT_COOLDOWN ≤ b - a) l := by
  haveI : IsTrans ℚ (fun a b : ℚ => ADJUSTMENT_COOLDOWN ≤ b - a) := by
    refine ⟨fun a b c h1 h2 => ?_⟩
    have h1' : ADJUSTMENT_COOLDOWN ≤ b - a := h1
    have h2' : ADJUSTMENT_COOLDOWN ≤ c - b := h2
    have h0 : (0 : ℚ) ≤ ADJUSTMENT_COOLDOWN := by norm_num [ADJUSTMENT_COOLDOWN]
    show ADJUSTMENT_COOLDOWN ≤ c - a
    linarith
  exact List.chain'_iff_pairwise.mp h

/-- Claim C6: over any sequence of `updateMetrics` calls from construction,
any two applied adjustments are separated by at least the 10,000 ms cooldown,
and `lastAdjustmentTime` is set to the call time exactly when an adjustment
is actually applied — a skipped or no-op decision leaves it unchanged. -/
theorem cooldown_separation (base : DifficultySettings) (tr : List EventCall)
    (s : DDAState) (e : String) (d : Option ℚ) (now : ℚ) :
    List.Pairwise (fun a b : ℚ => ADJUSTMENT_COOLDOWN ≤ b - a)
        (appliedTimes (mkAdjuster base) tr) ∧
      (updateMetrics s e d now).lastAdjustmentTime =
        (if stepApplied s e d now then now else s.lastAdjustmentTime) :=
  ⟨chain_sep_pairwise _ (appliedTimes_chain tr (mkAdjuster base)).tail,
    updateMetrics_lastAdjustmentTime_eq s e d now⟩

/-- The metric bounds that actually hold on the code: `successRate`,
`frustrationLevel` and `skillLevel` in [0,1], `engagementScore` in
[0, 1.05] — the power-up bonus can push it past 1. -/
def MetricsBounds (m : PlayerMetrics) : Prop :=
  0 ≤ m.successRate ∧ m.successRate ≤ 1 ∧
    0 ≤ m.frustrationLevel ∧ m.frustrationLevel ≤ 1 ∧
    0 ≤ m.engagementScore ∧ m.engagementScore ≤ 1.05 ∧
    0 ≤ m.skillLevel ∧ m.skillLevel ≤ 1

/-- Induction invariant: the metric bounds, a nonnegative reaction-time
estimate, and a level-start timestamp no later than the clock `t0`. -/
def Inv (s : DDAState) (t0 : ℚ) : Prop :=
  MetricsBounds s.playerMetrics ∧
    0 ≤ s.playerMetrics.reactionTime ∧
    s.levelStartTime ≤ t0

lemma lerp_mem (lo hi a b t : ℚ) (ha : lo ≤ a) (ha2 : a ≤ hi) (hb : lo ≤ b) (hb2 : b ≤ hi)
    (ht : 0 ≤ t) (ht2 : t ≤ 1) : lo ≤ lerp a b t ∧ lerp a b t ≤ hi := by
  unfold lerp
  constructor <;> nlinarith

lemma lerp_nonneg2 {a b t : ℚ} (ha : 0 ≤ a) (hb : 0 ≤ b) (ht : 0 ≤ t) (ht2 : t ≤ 1) :
    0 ≤ lerp a b t := by
  unfold lerp
  nlinarith

lemma clamp01_mem (x : ℚ) : 0 ≤ max 0 (min 1 x) ∧ max 0 (min 1 x) ≤ 1 :=
  ⟨le_max_left _ _, max_le (by norm_num) (min_le_left _ _)⟩

lemma timeScore_mem (lt : ℚ) (h : 0 ≤ lt) :
    0 ≤ max 0 (1 - lt / 60000) ∧ max 0 (1 - lt / 60000) ≤ 1 := by
  refine ⟨le_max_left _ _, max_le (by norm_num) ?_⟩
  have h2 : 0 ≤ lt / 60000 := by positivity
  linarith

lemma applyEvent_inv (s : DDAState) (e : String) (d : Option ℚ) (t t0 : ℚ)
    (hI : Inv s t0) (ht : t0 ≤ t)
    (hd : match d with | some et => et ≤ t | none => True) :
    Inv (applyEvent s e d t) t := by
  obtain ⟨⟨hsr0, hsr1, hf0, hf1, he0, he1, hk0, hk1⟩, hrt, hlst⟩ := hI
  have hlst' : s.levelStartTime ≤ t := le_trans hlst ht
  by_cases h1 : e = "level_start"
  · unfold applyEvent
    rw [if_pos h1]
    exact ⟨⟨hsr0, hsr1, hf0, hf1, he0, he1, hk0, hk1⟩, hrt, le_refl t⟩
  by_cases h2 : e = "player_death"
  · unfold applyEvent updateFrustrationLevel
    rw [if_neg h1, if_pos h2]
    exact ⟨⟨hsr0, hsr1, (clamp01_mem _).1, (clamp01_mem _).2, he0, he1, hk0, hk1⟩, hrt, hlst'⟩
  by_cases h3 : e = "level_complete"
  · unfold applyEvent updateSuccessRate updateEngagementScore
    rw [if_neg h1, if_neg h2, if_pos h3]
    have hdc : (0 : ℚ) < (s.deathCount : ℚ) + 1 := by positivity
    have hia0 : (0 : ℚ) ≤ 1 / ((s.deathCount : ℚ) + 1) := by positivity
    have hia1 : 1 / ((s.deathCount : ℚ) + 1) ≤ 1 := by
      rw [div_le_one hdc]
      have : (0 : ℚ) ≤ (s.deathCount : ℚ) := Nat.cast_nonneg _
      linarith
    have hsr := lerp_mem 0 1 _ _ 0.2 hsr0 hsr1 hia0 hia1 (by norm_num) (by norm_num)
    have hts := timeScore_mem (t - s.levelStartTime) (by linarith)
    have hascore : 0 ≤ max 0 (1 - ((s.deathCount : ℚ) + 1) / 5) ∧
        max 0 (1 - ((s.deathCount : ℚ) + 1) / 5) ≤ 1 := by
      refine ⟨le_max_left _ _, max_le (by norm_num) ?_⟩
      have : (0 : ℚ) ≤ ((s.deathCount : ℚ) + 1) / 5 := by positivity
      linarith
    have hraw0 : (0 : ℚ) ≤ (max 0 (1 - (t - s.levelStartTime) / 60000) +
        max 0 (1 - ((s.deathCount : ℚ) + 1) / 5)) / 2 + 0 := by
      have := hts.1
      have := hascore.1
      linarith
    have hraw1 : (max 0 (1 - (t - s.levelStartTime) / 60000) +
        max 0 (1 - ((s.deathCount : ℚ) + 1) / 5)) / 2 + 0 ≤ 1.05 := by
      have := hts.2
      have := hascore.2
      norm_num
      linarith
    have heng := lerp_mem 0 1.05 _ _ 0.3 he0 he1 hraw0 hraw1 (by norm_num) (by norm_num)
    exact ⟨⟨hsr.1, hsr.2, hf0, hf1, heng.1, heng.2, hk0, hk1⟩, hrt, hlst'⟩
  by_cases h4 : e = "ring_collected"
  · unfold applyEvent updateFrustrationLevel
    rw [if_neg h1, if_neg h2, if_neg h3, if_pos h4]
    exact ⟨⟨hsr0, hsr1, (clamp01_mem _).1, (clamp01_mem _).2, he0, he1, hk0, hk1⟩, hrt, hlst'⟩
  by_cases h5 : e = "power_up_collected"
  · unfold applyEvent updateEngagementScore
    rw [if_neg h1, if_neg h2, if_neg h3, if_neg h4, if_pos h5]
    have hraw0 : (0 : ℚ) ≤ (max 0 (1 - (0 : ℚ) / 60000) + max 0 (1 - (0 : ℚ) / 5)) / 2 + 0.05 := by
      have := le_max_left (0 : ℚ) (1 - (0 : ℚ) / 60000)
      have := le_max_left (0 : ℚ) (1 - (0 : ℚ) / 5)
      norm_num
    have hraw1 : (max 0 (1 - (0 : ℚ) / 60000) + max 0 (1 - (0 : ℚ) / 5)) / 2 + 0.05 ≤ 1.05 := by
      norm_num
    have heng := lerp_mem 0 1.05 _ _ 0.3 he0 he1 hraw0 hraw1 (by norm_num) (by norm_num)
    exact ⟨⟨hsr0, hsr1, hf0, hf1, heng.1, heng.2, hk0, hk1⟩, hrt, hlst'⟩
  by_cases h6 : e = "player_input"
  · rw [h6]
    cases d with
    | none =>
      rw [applyEvent_player_input_none]
      exact ⟨⟨hsr0, hsr1, hf0, hf1, he0, he1, hk0, hk1⟩, hrt, hlst'⟩
    | some et =>
      rw [applyEvent_player_input_some]
      by_cases hz : et = 0
      · rw [if_pos hz]
        exact ⟨⟨hsr0, hsr1, hf0, hf1, he0, he1, hk0, hk1⟩, hrt, hlst'⟩
      · rw [if_neg hz]
        have hsample : (0 : ℚ) ≤ t - et := by
          have het : et ≤ t := hd
          linarith
        have hr : (0 : ℚ) ≤ lerp s.playerMetrics.reactionTime (t - et) 0.1 :=
          lerp_nonneg2 hrt hsample (by norm_num) (by norm_num)
        exact ⟨⟨hsr0, hsr1, hf0, hf1, he0, he1, hk0, hk1⟩, hr, hlst'⟩
  · unfold applyEvent
    rw [if_neg h1, if_neg h2, if_neg h3, if_neg h4, if_neg h5, if_neg h6]
    exact ⟨⟨hsr0, hsr1, hf0, hf1, he0, he1, hk0, hk1⟩, hrt, hlst'⟩

lemma updateMetrics_inv (s : DDAState) (e : String) (d : Option ℚ) (t t0 : ℚ)
    (hI : Inv s t0) (ht : t0 ≤ t)
    (hd : match d with | some et => et ≤ t | none => True) :
    Inv (updateMetrics s e d t) t := by
  have hA := applyEvent_inv s e d t t0 hI ht hd
  obtain ⟨⟨hsr0, hsr1, hf0, hf1, he0, he1, hk0, hk1⟩, hrt, hlst⟩ := hA
  have hS : Inv (updateSkillLevel (applyEvent s e d t)) t := by
    have hrc1 : max 0 (1 - (applyEvent s e d t).playerMetrics.reactionTime / 1000) ≤ 1 := by
      refine max_le (by norm_num) ?_
      have : (0 : ℚ) ≤ (applyEvent s e d t).playerMetrics.reactionTime / 1000 := by positivity
      linarith
    have hrc0 : (0 : ℚ) ≤ max 0 (1 - (applyEvent s e d t).playerMetrics.reactionTime / 1000) :=
      le_max_left _ _
    have hcc0 : (0 : ℚ) ≤ min (((applyEvent s e d t).consecutiveSuccesses : ℚ) / 5) 1 :=
      le_min (by positivity) (by norm_num)
    have hcc1 : min (((applyEvent s e d t).consecutiveSuccesses : ℚ) / 5) 1 ≤ 1 :=
      min_le_right _ _
    have hns0 : (0 : ℚ) ≤ ((applyEvent s e d t).playerMetrics.successRate +
        max 0 (1 - (applyEvent s e d t).playerMetrics.reactionTime / 1000) +
        min (((applyEvent s e d t).consecutiveSuccesses : ℚ) / 5) 1) / 3 := by
      have h3 : (0 : ℚ) < 3 := by norm_num
      refine div_nonneg ?_ (le_of_lt h3)
      linarith
    have hns1 : ((applyEvent s e d t).playerMetrics.successRate +
        max 0 (1 - (applyEvent s e d t).playerMetrics.reactionTime / 1000) +
        min (((applyEvent s e d t).consecutiveSuccesses : ℚ) / 5) 1) / 3 ≤ 1 := by
      rw [div_le_one (by norm_num : (0 : ℚ) < 3)]
      linarith
    have hsk := lerp_mem 0 1 _ _ 0.1 hk0 hk1 hns0 hns1 (by norm_num) (by norm_num)
    exact ⟨⟨hsr0, hsr1, hf0, hf1, he0, he1, hsk.1, hsk.2⟩, hrt, hlst⟩
  obtain ⟨hm, hrt2, hlst2⟩ := hS
  unfold updateMetrics
  refine ⟨?_, ?_, ?_⟩
  · rw [considerAdjustment_playerMetrics]
    exact hm
  · rw [considerAdjustment_playerMetrics]
    exact hrt2
  · rw [(considerAdjustment_counters _ _).2.2.2]
    exact hlst2

lemma statesEvents_inv (tr : List EventCall) :
    ∀ (t0 : ℚ) (s : DDAState), Inv s t0 → ValidFrom t0 tr →
      ∀ x ∈ statesEvents s tr, MetricsBounds x.playerMetrics := by
  induction tr with
  | nil =>
    intro t0 s _ _ x hx
    simp [statesEvents] at hx
  | cons c rest ih =>
    intro t0 s hI hV x hx
    obtain ⟨hts, hdata, hV2⟩ := hV
    have hstep : Inv (updateMetrics s c.event c.data c.now) c.now :=
      updateMetrics_inv s c.event c.data c.now t0 hI hts hdata
    rw [statesEvents] at hx
    rcases List.mem_cons.mp hx with h | h
    · rw [h]
      exact hstep.1
    · exact ih c.now _ hstep hV2 x h

/-- Claim C1, counterexample: six `power_up_collected` events from the
constructed initial state leave `engagementScore` strictly above 1 — the
+0.05 bonus is added after the average and never clamped. -/
theorem power_up_engagement_overflow :
    1 < (runEvents (mkAdjuster demoBase)
        (List.replicate 6 ⟨"power_up_collected", none, 0⟩)).playerMetrics.engagementScore := by
  simp [runEvents, updateMetrics, applyEvent, considerAdjustment, updateSkillLevel,
    shouldAdjustDifficulty, updateEngagementScore, mkAdjuster, initMetrics, demoBase, lerp,
    ADJUSTMENT_COOLDOWN, List.replicate]
  norm_num [min_def, max_def]

/-- Claim C1, amended: for call sequences whose timestamps are nonnegative
and nondecreasing and whose `player_input` markers never lie in the future,
`successRate`, `frustrationLevel` and `skillLevel` stay within [0,1] after
each event and `engagementScore` stays within [0, 1.05]; the claimed [0,1]
bound for `engagementScore` is refuted by `power_up_collected`. -/
theorem metrics_bounds (base : DifficultySettings) (tr : List EventCall)
    (h : ValidFrom 0 tr) :
    ∀ x ∈ statesEvents (mkAdjuster base) tr, MetricsBounds x.playerMetrics := by
  refine statesEvents_inv tr 0 (mkAdjuster base) ?_ h
  unfold Inv MetricsBounds mkAdjuster initMetrics
  norm_num

/-- Claim C1 witness at a concrete valid call sequence. -/
theorem metrics_bounds_witness :
    ValidFrom 0 [⟨"player_death", none, 0⟩] ∧
      ∀ x ∈ statesEvents (mkAdjuster demoBase) [⟨"player_death", none, 0⟩],
        MetricsBounds x.playerMetrics := by
  have h : ValidFrom 0 [(⟨"player_death", none, 0⟩ : EventCall)] := ⟨le_refl 0, trivial, trivial⟩
  exact ⟨h, metrics_bounds demoBase _ h⟩

end Bounce
